import Mathlib

/-!
Verification of the record / fingerprint / match / replay engine in
`backend/ui_testing_agent/core/browser_use_replay.py`.

The Python module is shallowly embedded: pure record types become Lean
structures, the JSON persistence layer becomes a pair of total functions
between a `RecordedSession` and a `Json*` representation (where `none`
stands for an absent-or-null key, exactly how Python's `dict.get`
conflates the two for the fields the module writes), and the stateful
replayer / recorder become explicit state-passing functions.  Calls into
the external `browser-use` engine (CDP queries, the event bus, the live
selector map) are modelled as oracle fields of an environment structure;
all the decision logic of the module itself is translated line by line
from the source.
-/

namespace BrowserReplay

/-- The `ActionType` enum of the source module. -/
inductive ActionType
  | navigate
  | click
  | type
  | scroll
  | send_keys
  | go_back
  | go_forward
  | refresh
  | wait
  | upload_file
  | select_dropdown
deriving DecidableEq

/-- The string value of each enum member (`ActionType.X.value` in Python). -/
def ActionType.value : ActionType → String
  | .navigate => "navigate"
  | .click => "click"
  | .type => "type"
  | .scroll => "scroll"
  | .send_keys => "send_keys"
  | .go_back => "go_back"
  | .go_forward => "go_forward"
  | .refresh => "refresh"
  | .wait => "wait"
  | .upload_file => "upload_file"
  | .select_dropdown => "select_dropdown"

/-- Parsing an enum value, `ActionType(s)` in Python; `none` models the
`ValueError` raised on an unknown value. -/
def ActionType.ofValue (s : String) : Option ActionType :=
  if s = "navigate" then some .navigate
  else if s = "click" then some .click
  else if s = "type" then some .type
  else if s = "scroll" then some .scroll
  else if s = "send_keys" then some .send_keys
  else if s = "go_back" then some .go_back
  else if s = "go_forward" then some .go_forward
  else if s = "refresh" then some .refresh
  else if s = "wait" then some .wait
  else if s = "upload_file" then some .upload_file
  else if s = "select_dropdown" then some .select_dropdown
  else none

/-- The `ElementFingerprint` dataclass.  Python floats are modelled as `ℚ`
(the coordinate arithmetic the module performs on them is exact on the
dyadic values involved). -/
structure ElementFingerprint where
  css_selector : Option String := none
  xpath : Option String := none
  stable_hash : Option Int := none
  backend_node_id : Option Int := none
  id : Option String := none
  data_testid : Option String := none
  aria_label : Option String := none
  name : Option String := none
  placeholder : Option String := none
  href : Option String := none
  role : Option String := none
  tag_name : Option String := none
  text_content : Option String := none
  classes : List String := []
  x : Option ℚ := none
  y : Option ℚ := none
  width : Option ℚ := none
  height : Option ℚ := none
  recorded_index : Option Int := none
deriving DecidableEq

/-- The `RecordedAction` dataclass. -/
structure RecordedAction where
  action_type : ActionType
  timestamp : String
  step_number : Int := 0
  element : Option ElementFingerprint := none
  url : Option String := none
  text : Option String := none
  is_sensitive : Bool := false
  clear_before_type : Bool := true
  direction : Option String := none
  scroll_amount : Option Int := none
  keys : Option String := none
  wait_seconds : Option ℚ := none
  file_path : Option String := none
  dropdown_option : Option String := none
  new_tab : Bool := false
deriving DecidableEq

/-- The `RecordedSession` dataclass. -/
structure RecordedSession where
  session_id : String
  task : String
  initial_url : String
  recorded_at : String
  browser_use_version : String := ""
  actions : List RecordedAction := []
deriving DecidableEq

/-! ### Persisted JSON representation

`RecordedSession.save` writes a JSON document; `RecordedSession.load`
reads one back with `dict.get` defaults.  A `Json*` structure below is
one JSON object; a field that is `none` stands for a key that is absent
(or JSON `null` — the module's `save` never writes `null` for the keys
that `load` reads with a non-`None` default, so the conflation is
faithful on all persisted data). -/

/-- Persisted form of an `ElementFingerprint` (`asdict` output). -/
structure JsonFingerprint where
  css_selector : Option String := none
  xpath : Option String := none
  stable_hash : Option Int := none
  backend_node_id : Option Int := none
  id : Option String := none
  data_testid : Option String := none
  aria_label : Option String := none
  name : Option String := none
  placeholder : Option String := none
  href : Option String := none
  role : Option String := none
  tag_name : Option String := none
  text_content : Option String := none
  classes : Option (List String) := none
  x : Option ℚ := none
  y : Option ℚ := none
  width : Option ℚ := none
  height : Option ℚ := none
  recorded_index : Option Int := none
deriving DecidableEq

/-- Persisted form of one entry of the `"actions"` array. -/
structure JsonAction where
  action_type : Option String := none
  timestamp : Option String := none
  step_number : Option Int := none
  element : Option JsonFingerprint := none
  url : Option String := none
  text : Option String := none
  is_sensitive : Option Bool := none
  clear_before_type : Option Bool := none
  direction : Option String := none
  scroll_amount : Option Int := none
  keys : Option String := none
  wait_seconds : Option ℚ := none
  file_path : Option String := none
  dropdown_option : Option String := none
  new_tab : Option Bool := none
deriving DecidableEq

/-- Persisted form of the whole session file. -/
structure JsonSession where
  session_id : Option String := none
  task : Option String := none
  initial_url : Option String := none
  recorded_at : Option String := none
  browser_use_version : Option String := none
  actions : Option (List JsonAction) := none
deriving DecidableEq

/-- The `asdict(a.element)` serialization inside `RecordedSession.save`:
every dataclass field is written out. -/
def saveFingerprint (e : ElementFingerprint) : JsonFingerprint :=
  { css_selector := e.css_selector
    xpath := e.xpath
    stable_hash := e.stable_hash
    backend_node_id := e.backend_node_id
    id := e.id
    data_testid := e.data_testid
    aria_label := e.aria_label
    name := e.name
    placeholder := e.placeholder
    href := e.href
    role := e.role
    tag_name := e.tag_name
    text_content := e.text_content
    classes := some e.classes
    x := e.x
    y := e.y
    width := e.width
    height := e.height
    recorded_index := e.recorded_index }

/-- Fingerprint reconstruction inside `RecordedSession.load` (every field
read with `e.get(...)`; `classes` with default `[]`). -/
def loadFingerprint (j : JsonFingerprint) : ElementFingerprint :=
  { css_selector := j.css_selector
    xpath := j.xpath
    stable_hash := j.stable_hash
    backend_node_id := j.backend_node_id
    id := j.id
    data_testid := j.data_testid
    aria_label := j.aria_label
    name := j.name
    placeholder := j.placeholder
    href := j.href
    role := j.role
    tag_name := j.tag_name
    text_content := j.text_content
    classes := j.classes.getD []
    x := j.x
    y := j.y
    width := j.width
    height := j.height
    recorded_index := j.recorded_index }

/-- One action entry as written by `RecordedSession.save`: every key is
present; `text` is replaced by the redaction marker when `is_sensitive`. -/
def RecordedAction.save (a : RecordedAction) : JsonAction :=
  { action_type := some a.action_type.value
    timestamp := some a.timestamp
    step_number := some a.step_number
    element := a.element.map saveFingerprint
    url := a.url
    text := if a.is_sensitive then some "[SENSITIVE]" else a.text
    is_sensitive := some a.is_sensitive
    clear_before_type := some a.clear_before_type
    direction := a.direction
    scroll_amount := a.scroll_amount
    keys := a.keys
    wait_seconds := a.wait_seconds
    file_path := a.file_path
    dropdown_option := a.dropdown_option
    new_tab := a.new_tab }

/-- The whole file as written by `RecordedSession.save`. -/
def saveSession (s : RecordedSession) : JsonSession :=
  { session_id := some s.session_id
    task := some s.task
    initial_url := some s.initial_url
    recorded_at := some s.recorded_at
    browser_use_version := some s.browser_use_version
    actions := some (s.actions.map RecordedAction.save) }

/-- One action entry as read by `RecordedSession.load`.  `action_type`
and `timestamp` are accessed with `a["..."]` (a missing key or an
unknown enum value raises, modelled as `none`); every other field is
read with `a.get(...)` and the defaults visible below. -/
def loadAction (j : JsonAction) : Option RecordedAction := do
  let s ← j.action_type
  let t ← ActionType.ofValue s
  let ts ← j.timestamp
  pure
    { action_type := t
      timestamp := ts
      step_number := j.step_number.getD 0
      element := j.element.map loadFingerprint
      url := j.url
      text := j.text
      is_sensitive := j.is_sensitive.getD false
      clear_before_type := j.clear_before_type.getD true
      direction := j.direction
      scroll_amount := j.scroll_amount
      keys := j.keys
      wait_seconds := j.wait_seconds
      file_path := j.file_path
      dropdown_option := j.dropdown_option
      new_tab := j.new_tab.getD false }

/-- The action-loading loop of `RecordedSession.load`: entries are loaded
in order and any bad entry raises, aborting the whole load. -/
def loadActions : List JsonAction → Option (List RecordedAction)
  | [] => some []
  | j :: rest => do
    let a ← loadAction j
    let as ← loadActions rest
    pure (a :: as)

/-- `RecordedSession.load`: the four session-level keys are accessed with
`data["..."]` (required), `browser_use_version` with a `""` default and
`actions` with a `[]` default; any bad action entry aborts the load. -/
def loadSession (j : JsonSession) : Option RecordedSession := do
  let sid ← j.session_id
  let tk ← j.task
  let iu ← j.initial_url
  let ra ← j.recorded_at
  let as ← loadActions (j.actions.getD [])
  pure
    { session_id := sid
      task := tk
      initial_url := iu
      recorded_at := ra
      browser_use_version := j.browser_use_version.getD ""
      actions := as }

/-- What one save/load round trip does to a single action: the `text` of
a sensitive action comes back as the redaction marker, everything else
is untouched. -/
def redactAction (a : RecordedAction) : RecordedAction :=
  { a with text := if a.is_sensitive then some "[SENSITIVE]" else a.text }

lemma ofValue_value (t : ActionType) : ActionType.ofValue t.value = some t := by
  cases t <;> rfl

lemma loadFingerprint_saveFingerprint (e : ElementFingerprint) :
    loadFingerprint (saveFingerprint e) = e := rfl

lemma loadAction_save (a : RecordedAction) :
    loadAction a.save = some (redactAction a) := by
  unfold loadAction RecordedAction.save redactAction
  have h : Option.map loadFingerprint (Option.map saveFingerprint a.element) = a.element := by
    cases a.element <;> rfl
  simp [ofValue_value, h]

lemma loadActions_save (as : List RecordedAction) :
    loadActions (as.map RecordedAction.save) = some (as.map redactAction) := by
  induction as with
  | nil => rfl
  | cons a rest ih => simp [loadActions, loadAction_save, ih]

/-- C5: saving a `RecordedSession` to the persisted JSON format and loading
it back yields a session whose action list equals the original in count,
order and every non-redacted field; only the `text` of an action with
`is_sensitive = true` changes, loading back as the redaction marker
`"[SENSITIVE]"` (that is exactly what `redactAction` does). -/
theorem C5_save_load_round_trip (s : RecordedSession) :
    loadSession (saveSession s) =
      some { s with actions := s.actions.map redactAction } := by
  unfold loadSession saveSession
  simp [loadActions_save]

/-- C10: `RecordedSession.load` tolerates persisted actions that omit
optional keys, substituting the fixed defaults (`step_number` 0,
`is_sensitive` false, `clear_before_type` true, `new_tab` false, the
action-specific fields absent, `browser_use_version` the empty string);
only `action_type` and `timestamp` per action and `session_id`, `task`,
`initial_url`, `recorded_at` per session are required. -/
theorem C10_load_defaults :
    (∀ (j : JsonAction) (t : ActionType) (ts : String),
        j.action_type = some t.value → j.timestamp = some ts →
        loadAction j = some
          { action_type := t
            timestamp := ts
            step_number := j.step_number.getD 0
            element := j.element.map loadFingerprint
            url := j.url
            text := j.text
            is_sensitive := j.is_sensitive.getD false
            clear_before_type := j.clear_before_type.getD true
            direction := j.direction
            scroll_amount := j.scroll_amount
            keys := j.keys
            wait_seconds := j.wait_seconds
            file_path := j.file_path
            dropdown_option := j.dropdown_option
            new_tab := j.new_tab.getD false }) ∧
    (∀ j : JsonAction, j.action_type = none → loadAction j = none) ∧
    (∀ j : JsonAction, j.timestamp = none → loadAction j = none) ∧
    (∀ (js : JsonSession) (sid tk iu ra : String) (as : List RecordedAction),
        js.session_id = some sid → js.task = some tk →
        js.initial_url = some iu → js.recorded_at = some ra →
        loadActions (js.actions.getD []) = some as →
        loadSession js = some
          { session_id := sid
            task := tk
            initial_url := iu
            recorded_at := ra
            browser_use_version := js.browser_use_version.getD ""
            actions := as }) ∧
    (∀ js : JsonSession, js.session_id = none → loadSession js = none) ∧
    (∀ js : JsonSession, js.task = none → loadSession js = none) ∧
    (∀ js : JsonSession, js.initial_url = none → loadSession js = none) ∧
    (∀ js : JsonSession, js.recorded_at = none → loadSession js = none) := by
  refine ⟨?_, ?_, ?_, ?_, ?_, ?_, ?_, ?_⟩
  · intro j t ts h1 h2
    simp [loadAction, h1, h2, ofValue_value]
  · intro j h
    simp [loadAction, h]
  · intro j h
    cases hs : j.action_type with
    | none => simp [loadAction, hs]
    | some s =>
      cases ht : ActionType.ofValue s <;> simp [loadAction, hs, ht, h]
  · intro js sid tk iu ra as h1 h2 h3 h4 h5
    simp [loadSession, h1, h2, h3, h4, h5]
  · intro js h
    simp [loadSession, h]
  · intro js h
    cases hs : js.session_id <;> simp [loadSession, hs, h]
  · intro js h
    cases hs : js.session_id <;> cases ht : js.task <;>
      simp [loadSession, hs, ht, h]
  · intro js h
    cases hs : js.session_id <;> cases ht : js.task <;>
      cases hu : js.initial_url <;> simp [loadSession, hs, ht, hu, h]

/-- Witness for C10 at a concrete minimal persisted action and session. -/
theorem C10_load_defaults_witness :
    loadAction { action_type := some "click", timestamp := some "2024-01-01" } =
      some { action_type := ActionType.click, timestamp := "2024-01-01" } ∧
    loadSession { session_id := some "s", task := some "t",
                  initial_url := some "u", recorded_at := some "r" } =
      some { session_id := "s", task := "t", initial_url := "u", recorded_at := "r" } := by
  constructor
  · have h := C10_load_defaults.1
      { action_type := some "click", timestamp := some "2024-01-01" }
      ActionType.click "2024-01-01" rfl rfl
    simpa using h
  · have h := C10_load_defaults.2.2.2.1
      { session_id := some "s", task := some "t",
        initial_url := some "u", recorded_at := some "r" }
      "s" "t" "u" "r" [] rfl rfl rfl rfl rfl
    simpa using h

/-! ### Element matcher

`ElementMatcher.find_match` runs six strategies in order against a live
`browser_session`.  The engine calls it performs (`get_index_by_id`, the
CDP selector/XPath queries, `get_dom_element_at_coordinates`,
`get_selector_map`) are modelled as oracle fields of `BrowserSession`;
within one `find_match` call the selector map is one snapshot.  All
truthiness guards, the per-strategy scans over the selector map and the
short-circuit structure are translated from the source. -/

/-- One live DOM node handle, with exactly the data the matcher reads.
`stable_hash = none` models a node without `compute_stable_hash`. -/
structure Node where
  backend_node_id : Option Int := none
  attributes : List (String × String) := []
  tag_name : Option String := none
  node_name : String := ""
  ax_name : Option String := none
  stable_hash : Option Int := none
deriving DecidableEq

/-- Python truthiness of an optional string (`None` and `""` are falsy). -/
def strTruthy : Option String → Bool
  | none => false
  | some s => s != ""

/-- Python `int()` on a rational: truncation toward zero. -/
def pyInt (q : ℚ) : Int := if 0 ≤ q then ⌊q⌋ else ⌈q⌉

/-- The live browser session as seen by the matcher: one selector-map
snapshot plus the engine lookups, as oracles.  `byIdIndex` is
`get_index_by_id` (exception or `None` folded to `none`); `cssBackendId`
and `xpathBackendId` are the backend node id produced by the CDP
selector / XPath query chain (`none` covers a missing document root, a
zero node id or an exception); `atCoords` is
`get_dom_element_at_coordinates`. -/
structure BrowserSession where
  byIdIndex : String → Option Nat
  selector_map : List (Nat × Node)
  cssBackendId : String → Option Int
  xpathBackendId : String → Option Int
  atCoords : Int → Int → Option Node

/-- `node.attributes.get(k)`. -/
def attrsGet (n : Node) (k : String) : Option String := n.attributes.lookup k

/-- The `getattr(node, "tag_name", None) or node_name.lower()` idiom used
by the matcher helpers (an empty `tag_name` is falsy). -/
def nodeTagOf (n : Node) : String :=
  match n.tag_name with
  | some t => if t = "" then n.node_name.toLower else t
  | none => n.node_name.toLower

/-- `ElementMatcher._find_by_attribute`: first node whose attribute
equals the value exactly. -/
def find_by_attribute (m : List (Nat × Node)) (attr_name attr_value : String) :
    Option (Nat × Node) :=
  m.find? fun p => attrsGet p.2 attr_name == some attr_value

/-- `ElementMatcher._find_by_name_and_tag`. -/
def find_by_name_and_tag (m : List (Nat × Node)) (name tag : String) :
    Option (Nat × Node) :=
  m.find? fun p =>
    (nodeTagOf p.2).toLower == tag.toLower && attrsGet p.2 "name" == some name

/-- `ElementMatcher._find_by_tag_and_text`: tag equality plus a
case-insensitive substring match on the accessible name. -/
def find_by_tag_and_text (m : List (Nat × Node)) (tag text : String) :
    Option (Nat × Node) :=
  let tl := text.toLower
  m.find? fun p =>
    (nodeTagOf p.2).toLower == tag.toLower &&
      (match p.2.ax_name with
       | some nt => nt != "" && decide (tl.toList.IsInfix nt.toLower.toList)
       | none => false)

/-- `ElementMatcher._find_by_stable_hash`: scan the selector map for an
exact hash match. -/
def find_by_stable_hash (m : List (Nat × Node)) (h : Int) : Option (Nat × Node) :=
  m.find? fun p => p.2.stable_hash == some h

/-- The selector-map scan resolving a CDP backend node id to an
addressable node (shared tail of the CSS and XPath strategies). -/
def findByBackendId (m : List (Nat × Node)) (bid : Int) : Option (Nat × Node) :=
  m.find? fun p => p.2.backend_node_id == some bid

/-- `ElementMatcher._find_by_css_selector`: CDP query (oracle), then a
falsy check on the backend id, then the selector-map scan. -/
def find_by_css_selector (s : BrowserSession) (css : String) : Option (Nat × Node) :=
  match s.cssBackendId css with
  | none => none
  | some bid => if bid = 0 then none else findByBackendId s.selector_map bid

/-- `ElementMatcher._find_by_xpath`: CDP search (oracle), then a falsy
check on the backend id, then the selector-map scan. -/
def find_by_xpath (s : BrowserSession) (xpath : String) : Option (Nat × Node) :=
  match s.xpathBackendId xpath with
  | none => none
  | some bid => if bid = 0 then none else findByBackendId s.selector_map bid

/-- Strategy 1 of `find_match`: `get_index_by_id`, then confirm the index
is in the selector map. -/
def strat_id (fp : ElementFingerprint) (s : BrowserSession) : Option (Nat × Node) :=
  match fp.id with
  | none => none
  | some i =>
    if i = "" then none
    else
      match s.byIdIndex i with
      | none => none
      | some idx =>
        match s.selector_map.lookup idx with
        | none => none
        | some n => some (idx, n)

/-- Strategy 2 of `find_match`: CSS selector, when one was captured. -/
def strat_css (fp : ElementFingerprint) (s : BrowserSession) : Option (Nat × Node) :=
  match fp.css_selector with
  | none => none
  | some c => if c = "" then none else find_by_css_selector s c

/-- Strategy 3 of `find_match`: stable hash (guarded by `is not None`,
so hash 0 is still tried). -/
def strat_hash (fp : ElementFingerprint) (s : BrowserSession) : Option (Nat × Node) :=
  match fp.stable_hash with
  | none => none
  | some h => find_by_stable_hash s.selector_map h

/-- Strategy 4 of `find_match`: XPath, when one was captured. -/
def strat_xpath (fp : ElementFingerprint) (s : BrowserSession) : Option (Nat × Node) :=
  match fp.xpath with
  | none => none
  | some xp => if xp = "" then none else find_by_xpath s xp

/-- Strategy 5 of `find_match`: the attribute cascade, entered only when
the selector map is non-empty: `data-testid`, `aria-label`, `name` +
tag, `placeholder`, `href` (for `a` tags), tag + text. -/
def strat_attrs (fp : ElementFingerprint) (m : List (Nat × Node)) :
    Option (Nat × Node) :=
  if m.isEmpty then none
  else
    (if strTruthy fp.data_testid then
       find_by_attribute m "data-testid" (fp.data_testid.getD "") else none) <|>
    (if strTruthy fp.aria_label then
       find_by_attribute m "aria-label" (fp.aria_label.getD "") else none) <|>
    (if strTruthy fp.name && strTruthy fp.tag_name then
       find_by_name_and_tag m (fp.name.getD "") (fp.tag_name.getD "") else none) <|>
    (if strTruthy fp.placeholder then
       find_by_attribute m "placeholder" (fp.placeholder.getD "") else none) <|>
    (if strTruthy fp.href && fp.tag_name == some "a" then
       find_by_attribute m "href" (fp.href.getD "") else none) <|>
    (if strTruthy fp.text_content && strTruthy fp.tag_name then
       find_by_tag_and_text m (fp.tag_name.getD "") (fp.text_content.getD "") else none)

/-- Strategy 6 of `find_match`: coordinate fallback — centre point of
the recorded bounding box, tag verification, then a backend-id scan
(`None == None` matches, as in the Python `getattr` comparison). -/
def strat_coords (fp : ElementFingerprint) (s : BrowserSession) : Option (Nat × Node) :=
  match fp.x, fp.y with
  | some x, some y =>
    let cx := pyInt (x + (fp.width.getD 0) / 2)
    let cy := pyInt (y + (fp.height.getD 0) / 2)
    match s.atCoords cx cy with
    | none => none
    | some node =>
      if !strTruthy fp.tag_name ||
          (nodeTagOf node).toLower == (fp.tag_name.getD "").toLower then
        s.selector_map.find? fun p => p.2.backend_node_id == node.backend_node_id
      else none
  | _, _ => none

/-- `ElementMatcher.find_match`: the six strategies, in source order,
each returning as soon as it produces a match. -/
def find_match (fp : ElementFingerprint) (s : BrowserSession) : Option (Nat × Node) :=
  match strat_id fp s with
  | some r => some r
  | none =>
    match strat_css fp s with
    | some r => some r
    | none =>
      match strat_hash fp s with
      | some r => some r
      | none =>
        match strat_xpath fp s with
        | some r => some r
        | none =>
          match strat_attrs fp s.selector_map with
          | some r => some r
          | none => strat_coords fp s

/-- C4: `find_match` evaluates its strategies in strict priority order —
ID lookup, CSS selector, stable hash, XPath, attribute matching,
coordinate fallback — short-circuiting on the first success; in
particular, when the `id` strategy and the CSS strategy resolve to
different live elements, the `id`-matched element is returned. -/
theorem C4_matching_cascade (fp : ElementFingerprint) (s : BrowserSession) :
    (∀ r, strat_id fp s = some r → find_match fp s = some r) ∧
    (∀ r, strat_id fp s = none → strat_css fp s = some r →
      find_match fp s = some r) ∧
    (∀ r, strat_id fp s = none → strat_css fp s = none →
      strat_hash fp s = some r → find_match fp s = some r) ∧
    (∀ r, strat_id fp s = none → strat_css fp s = none →
      strat_hash fp s = none → strat_xpath fp s = some r →
      find_match fp s = some r) ∧
    (∀ r, strat_id fp s = none → strat_css fp s = none →
      strat_hash fp s = none → strat_xpath fp s = none →
      strat_attrs fp s.selector_map = some r → find_match fp s = some r) ∧
    (strat_id fp s = none → strat_css fp s = none →
      strat_hash fp s = none → strat_xpath fp s = none →
      strat_attrs fp s.selector_map = none →
      find_match fp s = strat_coords fp s) ∧
    (∀ r1 r2, strat_id fp s = some r1 → strat_css fp s = some r2 →
      r1 ≠ r2 → find_match fp s = some r1) := by
  refine ⟨?_, ?_, ?_, ?_, ?_, ?_, ?_⟩
  · intro r h; simp [find_match, h]
  · intro r h1 h2; simp [find_match, h1, h2]
  · intro r h1 h2 h3; simp [find_match, h1, h2, h3]
  · intro r h1 h2 h3 h4; simp [find_match, h1, h2, h3, h4]
  · intro r h1 h2 h3 h4 h5; simp [find_match, h1, h2, h3, h4, h5]
  · intro h1 h2 h3 h4 h5; simp [find_match, h1, h2, h3, h4, h5]
  · intro r1 r2 h1 h2 hne; simp [find_match, h1]

/-- Concrete live node matched by `id` in the C4 witness scenario. -/
def matcherNode1 : Node := { backend_node_id := some 1 }

/-- Concrete live node matched by CSS in the C4 witness scenario. -/
def matcherNode2 : Node := { backend_node_id := some 2 }

/-- Fingerprint with both a populated `id` and a populated CSS selector. -/
def matcherFp : ElementFingerprint :=
  { id := some "btn", css_selector := some "#other" }

/-- Session in which the `id` and the CSS selector resolve to different
live elements. -/
def matcherSess : BrowserSession :=
  { byIdIndex := fun i => if i = "btn" then some 1 else none
    selector_map := [(1, matcherNode1), (2, matcherNode2)]
    cssBackendId := fun c => if c = "#other" then some 2 else none
    xpathBackendId := fun _ => none
    atCoords := fun _ _ => none }

/-- Witness for C4: both strategies succeed on different elements and
`find_match` returns the `id`-matched one. -/
theorem C4_matching_cascade_witness :
    strat_id matcherFp matcherSess = some (1, matcherNode1) ∧
    strat_css matcherFp matcherSess = some (2, matcherNode2) ∧
    ((1 : Nat), matcherNode1) ≠ ((2 : Nat), matcherNode2) ∧
    find_match matcherFp matcherSess = some (1, matcherNode1) :=
  ⟨by decide, by decide, by decide,
    (C4_matching_cascade matcherFp matcherSess).2.2.2.2.2.2
      (1, matcherNode1) (2, matcherNode2) (by decide) (by decide) (by decide)⟩

/-! ### Element resolution with retry

`BrowserUseReplayer._find_element` loops over `range(max_retries)` with
`max_retries = 5` (the replayer always calls it with the default): each
attempt first forces an uncached `get_browser_state_summary`, then runs
the matcher; on a miss it sleeps `retry_delay` and updates
`retry_delay = min(retry_delay * 1.5, 5.0)`, skipping the sleep after
the last attempt.  The run is modelled as a trace of the externally
visible events plus the final outcome; the matcher outcome per attempt
is an oracle `matchAt` (the DOM may change between refreshes). -/

/-- Externally visible events of one `_find_element` call. -/
inductive FindEv
  | refreshUncached
  | matchAttempt (k : Nat)
  | sleep (d : ℚ)
deriving DecidableEq

/-- The error message raised after the retries are exhausted (details of
the fingerprint elided). -/
def noMatchMsg : String := "Could not find element matching fingerprint"

/-- The retry loop body, over the list of remaining attempt indices
(`[0, 1, 2, 3, 4]` for the default `max_retries = 5`). -/
def findElementAux (matchAt : Nat → Option Node) :
    List Nat → ℚ → List FindEv → List FindEv × Except String Node
  | [], _, tr => (tr, .error noMatchMsg)
  | attempt :: rest, delay, tr =>
    let tr := tr ++ [FindEv.refreshUncached, FindEv.matchAttempt attempt]
    match matchAt attempt with
    | some n => (tr, .ok n)
    | none =>
      match rest with
      | [] => (tr, .error noMatchMsg)
      | _ :: _ =>
        findElementAux matchAt rest (min (delay * (3 / 2)) 5) (tr ++ [FindEv.sleep delay])

/-- `BrowserUseReplayer._find_element` with the default `max_retries = 5`
and `retry_delay = 1.0`; a `none` fingerprint raises immediately. -/
def find_element_run (fp : Option ElementFingerprint) (matchAt : Nat → Option Node) :
    List FindEv × Except String Node :=
  match fp with
  | none => ([], .error "No element fingerprint provided")
  | some _ => findElementAux matchAt [0, 1, 2, 3, 4] 1 []

/-- The sleep durations of a trace, in order. -/
def sleepsOf : List FindEv → List ℚ
  | [] => []
  | FindEv.sleep d :: rest => d :: sleepsOf rest
  | _ :: rest => sleepsOf rest

/-- Number of matching attempts in a trace. -/
def attemptCount : List FindEv → Nat
  | [] => 0
  | FindEv.matchAttempt _ :: rest => attemptCount rest + 1
  | _ :: rest => attemptCount rest

/-- Checks that every matching attempt in a trace is immediately
preceded by an uncached DOM refresh. -/
def eachAttemptAfterRefresh : List FindEv → Bool
  | [] => true
  | FindEv.refreshUncached :: FindEv.matchAttempt _ :: rest => eachAttemptAfterRefresh rest
  | FindEv.matchAttempt _ :: _ => false
  | _ :: rest => eachAttemptAfterRefresh rest

/-- The exact trace of an unresolvable `_find_element` call. -/
def exhaustedTrace : List FindEv :=
  [FindEv.refreshUncached, FindEv.matchAttempt 0, FindEv.sleep 1,
   FindEv.refreshUncached, FindEv.matchAttempt 1, FindEv.sleep (3 / 2),
   FindEv.refreshUncached, FindEv.matchAttempt 2, FindEv.sleep (9 / 4),
   FindEv.refreshUncached, FindEv.matchAttempt 3, FindEv.sleep (27 / 8),
   FindEv.refreshUncached, FindEv.matchAttempt 4]

/-- C3: a fingerprint no matching attempt resolves causes exactly 5
matching attempts, each preceded by an uncached refresh of the live DOM
state, with sleeps of 1.0s, 1.5s, 2.25s, 3.375s between consecutive
attempts (each sleep at most 5.0s, total backoff 8.125s), before the
call fails. -/
theorem C3_retry_bound (f : ElementFingerprint) (matchAt : Nat → Option Node)
    (h : ∀ k ∈ List.range 5, matchAt k = none) :
    find_element_run (some f) matchAt = (exhaustedTrace, .error noMatchMsg) ∧
    attemptCount exhaustedTrace = 5 ∧
    eachAttemptAfterRefresh exhaustedTrace = true ∧
    sleepsOf exhaustedTrace = [1, 3 / 2, 9 / 4, 27 / 8] ∧
    (sleepsOf exhaustedTrace).sum = 65 / 8 ∧
    ∀ d ∈ sleepsOf exhaustedTrace, d ≤ 5 := by
  have h0 := h 0 (by decide)
  have h1 := h 1 (by decide)
  have h2 := h 2 (by decide)
  have h3 := h 3 (by decide)
  have h4 := h 4 (by decide)
  refine ⟨?_, by decide, by decide, by simp [exhaustedTrace, sleepsOf],
    by norm_num [exhaustedTrace, sleepsOf, List.sum_cons, List.sum_nil],
    by norm_num [exhaustedTrace, sleepsOf, List.forall_mem_cons]⟩
  simp only [find_element_run, findElementAux, h0, h1, h2, h3, h4, exhaustedTrace]
  norm_num [min_def]

/-- Fingerprint used in the C3 witness. -/
def retryFp : ElementFingerprint := { css_selector := some (".missing") }

/-- Witness for C3 with a matcher oracle that never resolves. -/
theorem C3_retry_bound_witness :
    (∀ k ∈ List.range 5, (fun _ => (none : Option Node)) k = none) ∧
    find_element_run (some retryFp) (fun _ => none) = (exhaustedTrace, .error noMatchMsg) ∧
    (sleepsOf exhaustedTrace).sum = 65 / 8 :=
  ⟨by decide,
   (C3_retry_bound retryFp (fun _ => none) (by decide)).1,
   (C3_retry_bound retryFp (fun _ => none) (by decide)).2.2.2.2.1⟩

/-! ### Action execution

`BrowserUseReplayer._execute_action` builds one engine event per action
and dispatches it on the event bus.  Element resolution
(`_find_element`, whose retry behaviour is modelled above) and event
dispatch are environment effects, modelled by the oracles of
`ReplayEnv`: `resolve fp` is the final outcome of `_find_element fp`
(its `.error` case is the exhausted-retries `ValueError`), and
`dispatchError e` is `some msg` when the engine throws on dispatching
`e`. -/

/-- The engine events the replayer can dispatch. -/
inductive BUEvent
  | navigateTo (url : String) (new_tab : Bool)
  | clickElement (node : Node)
  | typeText (node : Node) (text : String) (clear : Bool) (is_sensitive : Bool)
  | scrollBy (node : Option Node) (direction : String) (amount : Int)
  | sendKeys (keys : String)
  | goBack
  | goForward
  | refreshPage
  | waitFor (seconds : ℚ)
  | uploadFile (node : Node) (file_path : String)
  | selectDropdownOption (node : Node) (text : String)
deriving DecidableEq

/-- Environment of one `_execute_action` call. -/
structure ReplayEnv where
  resolve : ElementFingerprint → Except String Node
  dispatchError : BUEvent → Option String

/-- `_find_element` as seen from `_execute_action`: a missing fingerprint
raises immediately, otherwise the retry loop's outcome decides. -/
def findElementOutcome (env : ReplayEnv) : Option ElementFingerprint → Except String Node
  | none => .error "No element fingerprint provided"
  | some fp => env.resolve fp

/-- `event_bus.dispatch`: succeeds with the event, or throws. -/
def dispatchE (env : ReplayEnv) (e : BUEvent) : Except String BUEvent :=
  match env.dispatchError e with
  | some m => .error m
  | none => .ok e

/-- `sensitive_data` dictionary lookup. -/
def lookupSD (sd : List (String × String)) (k : String) : Option String := sd.lookup k

/-- The key loop of the sensitive branch: the first truthy key present
in `sensitive_data` wins (`if key and key in sensitive_data`). -/
def pickSensitive (sd : List (String × String)) : List (Option String) → Option String
  | [] => none
  | none :: rest => pickSensitive sd rest
  | some k :: rest =>
    if k != "" && (lookupSD sd k).isSome then lookupSD sd k
    else pickSensitive sd rest

/-- The text a `type` action dispatches: the sensitive substitution over
the keys `element.name`, `element.id`, `"password"`, `"secret"`, then
the final `text or ""` coercion. -/
def typedText (a : RecordedAction) (sd : List (String × String)) : String :=
  let t0 := a.text
  let t1 :=
    if a.is_sensitive && t0 == some "[SENSITIVE]" then
      match pickSensitive sd
        [a.element.bind (fun e => e.name), a.element.bind (fun e => e.id),
         some "password", some "secret"] with
      | some v => some v
      | none => t0
    else t0
  t1.getD ""

/-- Direction validation of the scroll branch: a falsy recorded
direction becomes `"down"`, as does anything outside the four literals. -/
def scrollDirection (a : RecordedAction) : String :=
  let d := match a.direction with
           | some s => if s = "" then "down" else s
           | none => "down"
  if d == "up" || d == "down" || d == "left" || d == "right" then d else "down"

/-- `BrowserUseReplayer._execute_action`: the event built and dispatched
for each action type; `.error` is a raised exception.  Note the scroll
branch swallows element-resolution failures (`except Exception: pass`)
and dispatches with `node = None`. -/
def executeAction (env : ReplayEnv) (sd : List (String × String)) (a : RecordedAction) :
    Except String BUEvent :=
  match a.action_type with
  | .navigate => dispatchE env (.navigateTo (a.url.getD "") a.new_tab)
  | .click =>
    match findElementOutcome env a.element with
    | .error m => .error m
    | .ok n => dispatchE env (.clickElement n)
  | .type =>
    match findElementOutcome env a.element with
    | .error m => .error m
    | .ok n => dispatchE env (.typeText n (typedText a sd) a.clear_before_type a.is_sensitive)
  | .scroll =>
    let node : Option Node :=
      match a.element with
      | none => none
      | some fp =>
        match env.resolve fp with
        | .ok n => some n
        | .error _ => none
    dispatchE env (.scrollBy node (scrollDirection a) (a.scroll_amount.getD 300))
  | .send_keys => dispatchE env (.sendKeys (a.keys.getD ""))
  | .go_back => dispatchE env .goBack
  | .go_forward => dispatchE env .goForward
  | .refresh => dispatchE env .refreshPage
  | .wait => dispatchE env (.waitFor (a.wait_seconds.getD 1))
  | .upload_file =>
    match findElementOutcome env a.element with
    | .error m => .error m
    | .ok n => dispatchE env (.uploadFile n (a.file_path.getD ""))
  | .select_dropdown =>
    match findElementOutcome env a.element with
    | .error m => .error m
    | .ok n => dispatchE env (.selectDropdownOption n (a.dropdown_option.getD ""))

/-- Spec-side description of the sensitive lookup: the caller-supplied
value for the fingerprint's `name`, then its `id`, then the literal keys
`"password"` and `"secret"`, in that order (an empty attribute value
counts as no key, matching the truthiness test of the code). -/
def specSensSubst (a : RecordedAction) (sd : List (String × String)) : Option String :=
  (a.element.bind fun e => e.name.bind fun n => if n = "" then none else lookupSD sd n) <|>
  (a.element.bind fun e => e.id.bind fun i => if i = "" then none else lookupSD sd i) <|>
  lookupSD sd "password" <|>
  lookupSD sd "secret"

lemma pickSensitive_cons (sd : List (String × String)) (k : Option String)
    (rest : List (Option String)) :
    pickSensitive sd (k :: rest) =
      ((k.bind fun s => if s = "" then none else lookupSD sd s) <|> pickSensitive sd rest) := by
  cases k with
  | none => simp [pickSensitive]
  | some s =>
    by_cases hs : s = ""
    · simp [pickSensitive, hs]
    · cases hl : lookupSD sd s with
      | none => simp [pickSensitive, hs, hl]
      | some v => simp [pickSensitive, hs, hl]

lemma ite_isSome_orElse (x y : Option String) :
    (if x.isSome = true then x else y) = (x <|> y) := by
  cases x <;> simp

lemma pickSensitive_eq_specSensSubst (a : RecordedAction) (sd : List (String × String)) :
    pickSensitive sd
      [a.element.bind (fun e => e.name), a.element.bind (fun e => e.id),
       some "password", some "secret"] = specSensSubst a sd := by
  simp only [pickSensitive_cons, pickSensitive, specSensSubst]
  cases a.element with
  | none => simp [ite_isSome_orElse]
  | some e => simp [Option.bind_assoc, ite_isSome_orElse]

lemma typedText_sensitive (a : RecordedAction) (sd : List (String × String))
    (hs : a.is_sensitive = true) (htx : a.text = some "[SENSITIVE]") :
    typedText a sd = (specSensSubst a sd).getD "[SENSITIVE]" := by
  simp only [typedText, hs, htx, pickSensitive_eq_specSensSubst]
  cases specSensSubst a sd <;> simp

/-- Counterexample to C1 as stated: a sensitive `type` action whose
fingerprint has no `name`/`id` key and an empty `sensitive_data` does
not fail — `_execute_action` dispatches a type command whose text is the
redaction marker. -/
def sensNode : Node := { backend_node_id := some 7 }

/-- Sensitive `type` action with no usable substitution key. -/
def sensAction : RecordedAction :=
  { action_type := .type
    timestamp := "t"
    step_number := 1
    element := some { tag_name := some "input" }
    text := some "[SENSITIVE]"
    is_sensitive := true }

/-- Environment in which resolution and dispatch always succeed. -/
def sensEnv : ReplayEnv :=
  { resolve := fun _ => .ok sensNode, dispatchError := fun _ => none }

/-- C1 counterexample: with no matching key the action succeeds and the
dispatched type command carries the literal redaction marker. -/
theorem C1_counterexample :
    executeAction sensEnv [] sensAction =
      .ok (.typeText sensNode "[SENSITIVE]" true true) := rfl

/-- C1 (amended): for a replayed sensitive `type` action whose stored
text is the redaction marker, the dispatched text is the caller-supplied
value looked up by the fingerprint's `name`, then `id`, then the literal
keys `"password"` and `"secret"`, in that order; if none of these keys
yields a value the type command is dispatched with the redaction marker
as its text (the action does not fail). -/
theorem C1_sensitive_substitution (env : ReplayEnv) (sd : List (String × String))
    (a : RecordedAction) (n : Node)
    (ht : a.action_type = ActionType.type)
    (hs : a.is_sensitive = true)
    (htx : a.text = some "[SENSITIVE]")
    (hres : findElementOutcome env a.element = .ok n)
    (hdis : ∀ e, env.dispatchError e = none) :
    executeAction env sd a =
      .ok (.typeText n ((specSensSubst a sd).getD "[SENSITIVE]")
            a.clear_before_type true) := by
  simp only [executeAction, ht, hres, typedText_sensitive a sd hs htx, hs, dispatchE, hdis]

/-- Sensitive `type` action whose fingerprint names the `password` key. -/
def sensAction2 : RecordedAction :=
  { action_type := .type
    timestamp := "t"
    step_number := 1
    element := some { name := some "password", tag_name := some "input" }
    text := some "[SENSITIVE]"
    is_sensitive := true }

/-- Witness for C1 (amended): the spec's own example — fingerprint
`name="password"` and `sensitive_data={"password": "S3cr3t!"}` dispatch
the literal secret, never the redaction marker. -/
theorem C1_sensitive_substitution_witness :
    executeAction sensEnv [("password", "S3cr3t!")] sensAction2 =
      .ok (.typeText sensNode "S3cr3t!" true true) := by
  have h := C1_sensitive_substitution sensEnv [("password", "S3cr3t!")] sensAction2 sensNode
    rfl rfl rfl rfl (fun _ => rfl)
  simpa [specSensSubst, lookupSD, sensAction2] using h

/-! ### The replay loop

`BrowserUseReplayer.replay` iterates over `session.actions`; each
iteration invokes `_execute_action` and updates the success/failure
counters and lists, breaking out of the loop on a failure when
`stop_on_failure` is set.  The per-action outcome is an oracle
`exec i a` (the world state at the `i`-th dispatch decides), and the
loop state additionally records, as instrumentation, the step numbers of
the actions for which `_execute_action` was actually invoked. -/

/-- The `ReplayResult` dataclass (`duration_seconds` is wall-clock time,
fixed to 0 in this model). -/
structure ReplayResult where
  success : Bool
  actions_total : Nat
  actions_succeeded : Nat
  actions_failed : Nat
  failed_steps : List Int := []
  errors : List String := []
  duration_seconds : ℚ := 0
deriving DecidableEq

/-- The error string recorded for a failed step:
`f"Step {step} ({action.action_type.value}): {str(e)}"`. -/
def stepError (a : RecordedAction) (e : String) : String :=
  "Step " ++ toString a.step_number ++ " (" ++ a.action_type.value ++ "): " ++ e

/-- The local variables of the replay loop, plus the instrumentation
list `attempted`. -/
structure ReplayState where
  succeeded : Nat := 0
  failed : Nat := 0
  failed_steps : List Int := []
  errors : List String := []
  attempted : List Int := []
deriving DecidableEq

/-- The `for action in session.actions` loop of `replay`. -/
def replayLoop (exec : Nat → RecordedAction → Except String Unit) (stop : Bool) :
    List RecordedAction → Nat → ReplayState → ReplayState
  | [], _, st => st
  | a :: rest, i, st =>
    let st1 := { st with attempted := st.attempted ++ [a.step_number] }
    match exec i a with
    | .ok _ => replayLoop exec stop rest (i + 1) { st1 with succeeded := st1.succeeded + 1 }
    | .error e =>
      let st2 := { st1 with
        failed := st1.failed + 1
        failed_steps := st1.failed_steps ++ [a.step_number]
        errors := st1.errors ++ [stepError a e] }
      if stop then st2 else replayLoop exec stop rest (i + 1) st2

/-- `BrowserUseReplayer.replay`: run the loop and assemble the
`ReplayResult` (`success = failed == 0`); the second component is the
instrumentation list of attempted step numbers. -/
def replayRun (session : RecordedSession) (exec : Nat → RecordedAction → Except String Unit)
    (stop_on_failure : Bool) : ReplayResult × List Int :=
  let st := replayLoop exec stop_on_failure session.actions 0 {}
  ({ success := st.failed == 0
     actions_total := session.actions.length
     actions_succeeded := st.succeeded
     actions_failed := st.failed
     failed_steps := st.failed_steps
     errors := st.errors
     duration_seconds := 0 }, st.attempted)

/-- Whether the oracle reports success for the `i`-th action. -/
def execOk (exec : Nat → RecordedAction → Except String Unit) (i : Nat)
    (a : RecordedAction) : Bool :=
  match exec i a with
  | .ok _ => true
  | .error _ => false

/-- The oracle's error message for the `i`-th action (`""` on success). -/
def execErr (exec : Nat → RecordedAction → Except String Unit) (i : Nat)
    (a : RecordedAction) : String :=
  match exec i a with
  | .ok _ => ""
  | .error e => e

/-- Spec-side closed form: how many actions succeed. -/
def specOkCount (exec : Nat → RecordedAction → Except String Unit) :
    Nat → List RecordedAction → Nat
  | _, [] => 0
  | i, a :: rest => (if execOk exec i a then 1 else 0) + specOkCount exec (i + 1) rest

/-- Spec-side closed form: the step numbers of exactly the failing
actions, in order. -/
def specFailedSteps (exec : Nat → RecordedAction → Except String Unit) :
    Nat → List RecordedAction → List Int
  | _, [] => []
  | i, a :: rest =>
    (if execOk exec i a then [] else [a.step_number]) ++ specFailedSteps exec (i + 1) rest

/-- Spec-side closed form: the error strings of exactly the failing
actions, in order. -/
def specErrors (exec : Nat → RecordedAction → Except String Unit) :
    Nat → List RecordedAction → List String
  | _, [] => []
  | i, a :: rest =>
    (if execOk exec i a then [] else [stepError a (execErr exec i a)]) ++
      specErrors exec (i + 1) rest

/-- Fallback action for the proof-friendly `List.getD` indexing. -/
def dummyAction : RecordedAction := { action_type := .wait, timestamp := "" }

lemma replayLoop_false (exec : Nat → RecordedAction → Except String Unit)
    (as : List RecordedAction) :
    ∀ (i : Nat) (st : ReplayState),
      replayLoop exec false as i st =
        { succeeded := st.succeeded + specOkCount exec i as
          failed := st.failed + (specFailedSteps exec i as).length
          failed_steps := st.failed_steps ++ specFailedSteps exec i as
          errors := st.errors ++ specErrors exec i as
          attempted := st.attempted ++ as.map fun a => a.step_number } := by
  induction as with
  | nil =>
    intro i st
    simp [replayLoop, specOkCount, specFailedSteps, specErrors]
  | cons a rest ih =>
    intro i st
    simp only [replayLoop]
    cases h : exec i a with
    | ok u =>
      have hok : execOk exec i a = true := by simp [execOk, h]
      rw [ih]
      simp [specOkCount, specFailedSteps, specErrors, hok, List.append_assoc,
        ReplayState.mk.injEq]
      omega
    | error e =>
      have hok : execOk exec i a = false := by simp [execOk, h]
      have herr : execErr exec i a = e := by simp [execErr, h]
      simp only [Bool.false_eq_true, if_false]
      rw [ih]
      simp [specOkCount, specFailedSteps, specErrors, hok, herr, List.append_assoc,
        ReplayState.mk.injEq]
      omega

lemma replayLoop_true_firstfail (exec : Nat → RecordedAction → Except String Unit)
    (as : List RecordedAction) :
    ∀ (i : Nat) (st : ReplayState) (k : Nat), k < as.length →
      execOk exec (i + k) (as.getD k dummyAction) = false →
      (∀ j, j < k → execOk exec (i + j) (as.getD j dummyAction) = true) →
      replayLoop exec true as i st =
        { succeeded := st.succeeded + k
          failed := st.failed + 1
          failed_steps := st.failed_steps ++ [(as.getD k dummyAction).step_number]
          errors := st.errors ++
            [stepError (as.getD k dummyAction) (execErr exec (i + k) (as.getD k dummyAction))]
          attempted := st.attempted ++ (as.take (k + 1)).map fun a => a.step_number } := by
  induction as with
  | nil =>
    intro i st k hk hfail hpre
    simp at hk
  | cons a rest ih =>
    intro i st k hk hfail hpre
    cases k with
    | zero =>
      simp only [replayLoop]
      cases h : exec i a with
      | ok u =>
        have hok : execOk exec (i + 0) ((a :: rest).getD 0 dummyAction) = true := by
          simp [execOk, h]
        rw [hok] at hfail
        exact absurd hfail (by simp)
      | error e =>
        have herr : execErr exec i a = e := by simp [execErr, h]
        simp [herr, ReplayState.mk.injEq, List.take_succ_cons]
    | succ n =>
      have h0 : execOk exec i a = true := by
        have := hpre 0 (Nat.succ_pos n)
        simpa using this
      simp only [replayLoop]
      cases h : exec i a with
      | error e => simp [execOk, h] at h0
      | ok u =>
        have hn : n < rest.length := by simpa using hk
        have hf : execOk exec (i + 1 + n) (rest.getD n dummyAction) = false := by
          rw [show i + 1 + n = i + (n + 1) from by omega]
          simpa [List.getD_cons_succ] using hfail
        have hp : ∀ j, j < n → execOk exec (i + 1 + j) (rest.getD j dummyAction) = true := by
          intro j hj
          rw [show i + 1 + j = i + (j + 1) from by omega]
          simpa [List.getD_cons_succ] using hpre (j + 1) (by omega)
        rw [ih (i + 1) _ n hn hf hp]
        simp [List.getD_cons_succ, List.take_succ_cons, List.append_assoc,
          ReplayState.mk.injEq, show i + (n + 1) = i + 1 + n from by omega]
        omega

lemma replayLoop_len_inv (exec : Nat → RecordedAction → Except String Unit)
    (stop : Bool) (as : List RecordedAction) :
    ∀ (i : Nat) (st : ReplayState),
      st.failed_steps.length = st.failed → st.errors.length = st.failed →
      (replayLoop exec stop as i st).failed_steps.length =
          (replayLoop exec stop as i st).failed ∧
      (replayLoop exec stop as i st).errors.length =
          (replayLoop exec stop as i st).failed := by
  induction as with
  | nil => intro i st h1 h2; simpa [replayLoop] using ⟨h1, h2⟩
  | cons a rest ih =>
    intro i st h1 h2
    simp only [replayLoop]
    cases h : exec i a with
    | ok u => exact ih (i + 1) _ (by simpa using h1) (by simpa using h2)
    | error e =>
      cases stop with
      | true => simp [h1, h2]
      | false =>
        simp only [Bool.false_eq_true, if_false]
        exact ih (i + 1) _ (by simp [h1]) (by simp [h2])

lemma replayLoop_count_le (exec : Nat → RecordedAction → Except String Unit)
    (stop : Bool) (as : List RecordedAction) :
    ∀ (i : Nat) (st : ReplayState),
      (replayLoop exec stop as i st).succeeded + (replayLoop exec stop as i st).failed ≤
        st.succeeded + st.failed + as.length := by
  induction as with
  | nil => intro i st; simp [replayLoop]
  | cons a rest ih =>
    intro i st
    simp only [replayLoop]
    cases h : exec i a with
    | ok u =>
      have h2 := ih (i + 1)
        { succeeded := st.succeeded + 1, failed := st.failed,
          failed_steps := st.failed_steps, errors := st.errors,
          attempted := st.attempted ++ [a.step_number] }
      simp only [List.length_cons] at h2 ⊢
      omega
    | error e =>
      cases stop with
      | true => simp; omega
      | false =>
        simp only [Bool.false_eq_true, if_false]
        have h2 := ih (i + 1)
          { succeeded := st.succeeded, failed := st.failed + 1,
            failed_steps := st.failed_steps ++ [a.step_number],
            errors := st.errors ++ [stepError a e],
            attempted := st.attempted ++ [a.step_number] }
        simp only [List.length_cons] at h2 ⊢
        omega

lemma specOkCount_add_failed (exec : Nat → RecordedAction → Except String Unit)
    (as : List RecordedAction) :
    ∀ i, specOkCount exec i as + (specFailedSteps exec i as).length = as.length := by
  induction as with
  | nil => intro i; simp [specOkCount, specFailedSteps]
  | cons a rest ih =>
    intro i
    have h2 := ih (i + 1)
    simp only [specOkCount, specFailedSteps, List.length_cons, List.length_append]
    cases h : execOk exec i a <;> simp <;> omega

/-- C2: with `stop_on_failure = true`, if the action at position `k` is
the first to fail then the loop terminates right after it — the
attempted steps are exactly the first `k + 1` actions — and the result
counts the `k` earlier successes and the one failure; with
`stop_on_failure = false` every action is attempted and the totals
reflect the true failure count. -/
theorem C2_stop_on_failure (session : RecordedSession)
    (exec : Nat → RecordedAction → Except String Unit) (k : Nat)
    (hk : k < session.actions.length)
    (hfail : execOk exec k (session.actions.getD k dummyAction) = false)
    (hpre : ∀ j ∈ List.range k, execOk exec j (session.actions.getD j dummyAction) = true) :
    (replayRun session exec true).2 =
        (session.actions.take (k + 1)).map (fun a => a.step_number) ∧
    (replayRun session exec true).1.actions_succeeded = k ∧
    (replayRun session exec true).1.actions_failed = 1 ∧
    (replayRun session exec true).1.failed_steps =
        [(session.actions.getD k dummyAction).step_number] ∧
    (replayRun session exec false).2 =
        session.actions.map (fun a => a.step_number) ∧
    (replayRun session exec false).1.actions_succeeded +
        (replayRun session exec false).1.actions_failed =
        (replayRun session exec false).1.actions_total ∧
    (replayRun session exec false).1.actions_failed =
        (specFailedSteps exec 0 session.actions).length := by
  have ht := replayLoop_true_firstfail exec session.actions 0 {} k hk
    (by simpa using hfail)
    (fun j hj => by simpa using hpre j (List.mem_range.mpr hj))
  have hf := replayLoop_false exec session.actions 0 {}
  have hc := specOkCount_add_failed exec session.actions 0
  refine ⟨?_, ?_, ?_, ?_, ?_, ?_, ?_⟩ <;> (simp [replayRun, ht, hf]; try omega)

/-- Wait action with a given step number, for the loop witnesses. -/
def wAct (n : Int) : RecordedAction :=
  { action_type := .wait, timestamp := "t", step_number := n }

/-- The spec's 5-action example session. -/
def replaySession5 : RecordedSession :=
  { session_id := "s", task := "demo", initial_url := "u", recorded_at := "r",
    actions := [wAct 1, wAct 2, wAct 3, wAct 4, wAct 5] }

/-- Outcome oracle that fails exactly the third dispatched action. -/
def failAt3Exec : Nat → RecordedAction → Except String Unit :=
  fun i _ => if i = 2 then .error "boom" else .ok ()

/-- Witness for C2: the spec's example — 5 actions, action 3 fails;
`stop_on_failure=true` gives `actions_succeeded=2`, `actions_failed=1`
and no dispatch of actions 4–5; `stop_on_failure=false` attempts all 5. -/
theorem C2_stop_on_failure_witness :
    (replayRun replaySession5 failAt3Exec true).1.actions_succeeded = 2 ∧
    (replayRun replaySession5 failAt3Exec true).1.actions_failed = 1 ∧
    (replayRun replaySession5 failAt3Exec true).2 = [1, 2, 3] ∧
    (replayRun replaySession5 failAt3Exec false).2 = [1, 2, 3, 4, 5] := by
  have h := C2_stop_on_failure replaySession5 failAt3Exec 2 (by decide) (by decide)
    (by decide)
  refine ⟨h.2.1, h.2.2.1, ?_, ?_⟩
  · simpa [replaySession5, wAct] using h.1
  · simpa [replaySession5, wAct] using h.2.2.2.2.1

/-- C7: a replay is successful exactly when no action failed; any
failure is surfaced through `failed_steps` and `errors`, whose lengths
always equal `actions_failed`, and (for a run that attempts every
action) which are precisely the step numbers and error strings of the
failing actions, in order. -/
theorem C7_success_iff_no_failures (session : RecordedSession)
    (exec : Nat → RecordedAction → Except String Unit) (stop : Bool) :
    ((replayRun session exec stop).1.success = true ↔
        (replayRun session exec stop).1.actions_failed = 0) ∧
    (replayRun session exec stop).1.failed_steps.length =
        (replayRun session exec stop).1.actions_failed ∧
    (replayRun session exec stop).1.errors.length =
        (replayRun session exec stop).1.actions_failed ∧
    (stop = false →
      (replayRun session exec stop).1.failed_steps =
          specFailedSteps exec 0 session.actions ∧
      (replayRun session exec stop).1.errors = specErrors exec 0 session.actions) := by
  have hinv := replayLoop_len_inv exec stop session.actions 0 {} (by simp) (by simp)
  refine ⟨?_, ?_, ?_, ?_⟩
  · simp [replayRun]
  · simpa [replayRun] using hinv.1
  · simpa [replayRun] using hinv.2
  · intro hstop
    subst hstop
    have hf := replayLoop_false exec session.actions 0 {}
    simp [replayRun, hf]

/-- Witness for C7 at the example session (both stop modes, both
conclusions). -/
theorem C7_success_iff_no_failures_witness :
    ((replayRun replaySession5 failAt3Exec false).1.success = true ↔
        (replayRun replaySession5 failAt3Exec false).1.actions_failed = 0) ∧
    (replayRun replaySession5 failAt3Exec false).1.failed_steps =
        specFailedSteps failAt3Exec 0 replaySession5.actions :=
  ⟨(C7_success_iff_no_failures replaySession5 failAt3Exec false).1,
   ((C7_success_iff_no_failures replaySession5 failAt3Exec false).2.2.2 rfl).1⟩

/-- C9: in every replay run `actions_failed` equals the length of
`failed_steps` and of `errors`; `actions_succeeded + actions_failed` is
at most `actions_total`, which is the session's action count; and with
`stop_on_failure = false` the counts sum exactly to the total. -/
theorem C9_result_invariants (session : RecordedSession)
    (exec : Nat → RecordedAction → Except String Unit) (stop : Bool) :
    (replayRun session exec stop).1.actions_failed =
        (replayRun session exec stop).1.failed_steps.length ∧
    (replayRun session exec stop).1.actions_failed =
        (replayRun session exec stop).1.errors.length ∧
    (replayRun session exec stop).1.actions_succeeded +
        (replayRun session exec stop).1.actions_failed ≤
        (replayRun session exec stop).1.actions_total ∧
    (replayRun session exec stop).1.actions_total = session.actions.length ∧
    (stop = false →
      (replayRun session exec stop).1.actions_succeeded +
          (replayRun session exec stop).1.actions_failed =
          (replayRun session exec stop).1.actions_total) := by
  have hinv := replayLoop_len_inv exec stop session.actions 0 {} (by simp) (by simp)
  have hle := replayLoop_count_le exec stop session.actions 0 {}
  refine ⟨by simpa [replayRun] using hinv.1.symm, by simpa [replayRun] using hinv.2.symm,
    by simpa [replayRun] using hle, by simp [replayRun], ?_⟩
  intro hstop
  subst hstop
  have hf := replayLoop_false exec session.actions 0 {}
  have hc := specOkCount_add_failed exec session.actions 0
  simp [replayRun, hf]
  omega

/-- Witness for C9 at the example session with `stop_on_failure=false`. -/
theorem C9_result_invariants_witness :
    (replayRun replaySession5 failAt3Exec false).1.actions_failed =
        (replayRun replaySession5 failAt3Exec false).1.failed_steps.length ∧
    (replayRun replaySession5 failAt3Exec false).1.actions_succeeded +
        (replayRun replaySession5 failAt3Exec false).1.actions_failed =
        (replayRun replaySession5 failAt3Exec false).1.actions_total :=
  ⟨(C9_result_invariants replaySession5 failAt3Exec false).1,
   (C9_result_invariants replaySession5 failAt3Exec false).2.2.2.2 rfl⟩

/-- The replay loop driven by `_execute_action` itself (the event value
is discarded by the loop, only success/failure matters). -/
def execOf (env : ReplayEnv) (sd : List (String × String)) :
    Nat → RecordedAction → Except String Unit :=
  fun _ a => (executeAction env sd a).map fun _ => ()

lemma specFailedSteps_append (exec : Nat → RecordedAction → Except String Unit)
    (xs ys : List RecordedAction) :
    ∀ i, specFailedSteps exec i (xs ++ ys) =
      specFailedSteps exec i xs ++ specFailedSteps exec (i + xs.length) ys := by
  induction xs with
  | nil => intro i; simp [specFailedSteps]
  | cons x rest ih =>
    intro i
    simp only [List.cons_append, specFailedSteps, List.length_cons, List.append_assoc,
      List.append_eq]
    rw [ih (i + 1), show i + 1 + rest.length = i + (rest.length + 1) from by omega]

/-- C6 (amended): for a replayed `click`, `type`, `upload_file` or
`select_dropdown` action carrying a fingerprint, exhausting the
matcher's retries fails that action only — `_execute_action` raises the
resolution error, the step is recorded in `failed_steps` with an error
string in `errors`, and with `stop_on_failure` unset every action of the
session is still attempted.  (A `scroll` action is the exception the
original claim missed: its resolution failure is swallowed.) -/
theorem C6_resolution_failure_scoped (env : ReplayEnv) (sd : List (String × String))
    (a : RecordedAction) (fp : ElementFingerprint) (m : String)
    (he : a.element = some fp) (hm : env.resolve fp = .error m)
    (hty : a.action_type = .click ∨ a.action_type = ActionType.type ∨
           a.action_type = .upload_file ∨ a.action_type = .select_dropdown) :
    executeAction env sd a = .error m ∧
    ∀ (session : RecordedSession) (pre post : List RecordedAction),
      session.actions = pre ++ a :: post →
      (replayRun session (execOf env sd) false).2 =
          session.actions.map (fun x => x.step_number) ∧
      a.step_number ∈ (replayRun session (execOf env sd) false).1.failed_steps := by
  have hexec : executeAction env sd a = .error m := by
    rcases hty with h | h | h | h <;>
      simp [executeAction, h, findElementOutcome, he, hm]
  refine ⟨hexec, ?_⟩
  intro session pre post hsplit
  have hf := replayLoop_false (execOf env sd) session.actions 0 {}
  constructor
  · simp [replayRun, hf]
  · simp only [replayRun, hf]
    have hokfalse : ∀ i, execOk (execOf env sd) i a = false := by
      intro i
      simp [execOk, execOf, hexec, Except.map]
    rw [hsplit, specFailedSteps_append]
    simp [specFailedSteps, hokfalse]

/-- Environment whose element resolution always fails (the outcome of
the exhausted retry loop) while dispatch succeeds. -/
def failEnv : ReplayEnv :=
  { resolve := fun fp => (find_element_run (some fp) fun _ => none).2.map fun n => n
    dispatchError := fun _ => none }

/-- Click action carrying a fingerprint, for the C6 witness. -/
def clickAct : RecordedAction :=
  { action_type := .click, timestamp := "t", step_number := 2,
    element := some { id := some "b" } }

/-- One-action session around `clickAct`. -/
def clickSession : RecordedSession :=
  { session_id := "s", task := "t", initial_url := "u", recorded_at := "r",
    actions := [clickAct] }

/-- Witness for C6 (amended): the unresolvable click fails alone and its
step lands in `failed_steps`. -/
theorem C6_resolution_failure_scoped_witness :
    executeAction failEnv [] clickAct = .error noMatchMsg ∧
    (2 : Int) ∈ (replayRun clickSession (execOf failEnv []) false).1.failed_steps := by
  have h := C6_resolution_failure_scoped failEnv [] clickAct
    { id := some "b" } noMatchMsg rfl rfl (Or.inl rfl)
  exact ⟨h.1, (h.2 clickSession [] [] rfl).2⟩

/-- Scroll action carrying a fingerprint, for the C6 counterexample. -/
def scrollAct : RecordedAction :=
  { action_type := .scroll, timestamp := "t", step_number := 1,
    element := some { id := some "z" }, direction := some "down",
    scroll_amount := some 100 }

/-- One-action session around `scrollAct`. -/
def scrollSession : RecordedSession :=
  { session_id := "s", task := "t", initial_url := "u", recorded_at := "r",
    actions := [scrollAct] }

/-- C6 counterexample: a `scroll` action whose fingerprint exhausts the
matcher's retries is NOT recorded as failed — the scroll dispatches with
no target node and the replay counts it as succeeded. -/
theorem C6_counterexample :
    executeAction failEnv [] scrollAct = .ok (.scrollBy none "down" 100) ∧
    (replayRun scrollSession (execOf failEnv []) false).1.actions_failed = 0 ∧
    (replayRun scrollSession (execOf failEnv []) false).1.actions_succeeded = 1 ∧
    (replayRun scrollSession (execOf failEnv []) false).1.failed_steps = [] :=
  ⟨rfl, rfl, rfl, rfl⟩

/-! ### The recorder

`BrowserUseRecorder` holds `_session`, `_is_recording` and
`_step_counter`; `attach` creates a fresh empty session (it does not
touch the counter), `_record` increments the counter under the lock and
stamps the action, `detach` returns the session and clears the
recording state.  Event handlers build the `RecordedAction` passed to
`_record`; the lock serialises calls, so recording is modelled as a
sequential fold. -/

/-- The recorder state (`_browser_session` and the lock elided). -/
structure Recorder where
  session_id : String
  task : String
  initial_url : String
  session : Option RecordedSession := none
  is_recording : Bool := false
  step_counter : Nat := 0
deriving DecidableEq

/-- `BrowserUseRecorder.__init__`. -/
def Recorder.init (sid task url : String) : Recorder :=
  { session_id := sid, task := task, initial_url := url }

/-- `BrowserUseRecorder.attach` (engine version and timestamp supplied
by the environment): fails if already recording, starts a fresh empty
session, leaves `_step_counter` alone. -/
def Recorder.attach (r : Recorder) (version recorded_at : String) :
    Except String Recorder :=
  if r.is_recording then .error "Already recording"
  else
    .ok { r with
      session := some
        { session_id := r.session_id, task := r.task, initial_url := r.initial_url,
          recorded_at := recorded_at, browser_use_version := version, actions := [] }
      is_recording := true }

/-- `BrowserUseRecorder._record`: silently drops the action when no
session is active, otherwise increments the counter, stamps the action
with it and appends. -/
def Recorder.record (r : Recorder) (a : RecordedAction) : Recorder :=
  match r.session with
  | none => r
  | some s =>
    { r with
      step_counter := r.step_counter + 1
      session := some { s with actions :=
        s.actions ++ [{ a with step_number := Int.ofNat (r.step_counter + 1) }] } }

/-- `BrowserUseRecorder.detach`: fails unless recording with a live
session, returns the session and clears the state (the counter is NOT
reset). -/
def Recorder.detach (r : Recorder) : Except String (RecordedSession × Recorder) :=
  match r.is_recording, r.session with
  | true, some s => .ok (s, { r with is_recording := false, session := none })
  | _, _ => .error "Not recording"

/-- One attach – record* – detach cycle. -/
def Recorder.runCycle (r : Recorder) (version recorded_at : String)
    (as : List RecordedAction) : Except String (RecordedSession × Recorder) := do
  let r1 ← r.attach version recorded_at
  let r2 := as.foldl Recorder.record r1
  r2.detach

/-- The step-number stamping `_record` performs along a list of actions,
starting from counter value `c`. -/
def stampFrom (c : Nat) : List RecordedAction → List RecordedAction
  | [] => []
  | a :: rest => { a with step_number := Int.ofNat (c + 1) } :: stampFrom (c + 1) rest

lemma stampFrom_steps (as : List RecordedAction) :
    ∀ c, (stampFrom c as).map (fun a => a.step_number) =
      (List.range' (c + 1) as.length).map Int.ofNat := by
  induction as with
  | nil => intro c; simp [stampFrom]
  | cons a rest ih =>
    intro c
    simp [stampFrom, List.range'_succ, ih (c + 1)]

lemma record_foldl (as : List RecordedAction) :
    ∀ (r : Recorder) (s : RecordedSession), r.session = some s →
      as.foldl Recorder.record r =
        { r with
          step_counter := r.step_counter + as.length
          session := some { s with actions := s.actions ++ stampFrom r.step_counter as } } := by
  induction as with
  | nil =>
    intro r s hs
    simp only [List.foldl_nil, stampFrom, List.append_nil, List.length_nil, Nat.add_zero]
    rw [← hs]
  | cons a rest ih =>
    intro r s hs
    simp only [List.foldl_cons]
    rw [ih (Recorder.record r a)
      { s with actions := s.actions ++ [{ a with step_number := Int.ofNat (r.step_counter + 1) }] }
      (by simp [Recorder.record, hs])]
    simp [Recorder.record, hs, stampFrom, List.append_assoc, Recorder.mk.injEq]
    omega

/-- Action passed to the recorder in the C8 scenarios (the recorder
overwrites its step number). -/
def recAct : RecordedAction := { action_type := .click, timestamp := "t" }

/-- C8 counterexample: the step counter is not reset between cycles —
after a first one-action cycle, the first action of a second cycle on
the same recorder instance gets step number 2, not 1. -/
theorem C8_counterexample :
    (do
      let p1 ← (Recorder.init "s" "t" "u").runCycle "v" "d1" [recAct]
      let p2 ← p1.2.runCycle "v" "d2" [recAct]
      pure (p2.1.actions.map fun a => a.step_number)) = Except.ok [(2 : Int)] ∧
    [(2 : Int)] ≠ [(1 : Int)] :=
  ⟨rfl, by decide⟩

/-- C8 (amended): within one attach–record–detach cycle the recorded
step numbers are consecutive successors continuing from the recorder's
current counter — so a fresh recorder's first cycle is numbered 1..n —
and the cycle leaves the counter at its old value plus the number of
recorded actions (later cycles therefore continue, rather than restart
at 1). -/
theorem C8_step_numbering (r : Recorder) (version recorded_at : String)
    (as : List RecordedAction) (h : r.is_recording = false) :
    (r.runCycle version recorded_at as).toOption.map
        (fun p => (p.1.actions.map fun a => a.step_number, p.2.step_counter)) =
      some ((List.range' (r.step_counter + 1) as.length).map Int.ofNat,
            r.step_counter + as.length) ∧
    (r.step_counter = 0 →
      (r.runCycle version recorded_at as).toOption.map
          (fun p => p.1.actions.map fun a => a.step_number) =
        some ((List.range' 1 as.length).map Int.ofNat)) := by
  have hrun : r.runCycle version recorded_at as =
      .ok
        ({ session_id := r.session_id
           task := r.task
           initial_url := r.initial_url
           recorded_at := recorded_at
           browser_use_version := version
           actions := stampFrom r.step_counter as },
         { r with
           is_recording := false
           session := none
           step_counter := r.step_counter + as.length }) := by
    simp only [Recorder.runCycle, Recorder.attach, h, Bool.false_eq_true, if_false,
      bind, Except.bind]
    rw [record_foldl as _ _ rfl]
    simp [Recorder.detach]
  constructor
  · simp [hrun, stampFrom_steps, Except.toOption]
  · intro h0
    simp [hrun, stampFrom_steps, h0, Except.toOption]

/-- Witness for C8 (amended): a fresh recorder recording two actions in
its first cycle numbers them 1, 2 and leaves the counter at 2. -/
theorem C8_step_numbering_witness :
    (Recorder.init "s" "t" "u").is_recording = false ∧
    ((Recorder.init "s" "t" "u").runCycle "v" "d" [recAct, recAct]).toOption.map
        (fun p => (p.1.actions.map fun a => a.step_number, p.2.step_counter)) =
      some ((List.range' 1 2).map Int.ofNat, 2) :=
  ⟨rfl, (C8_step_numbering (Recorder.init "s" "t" "u") "v" "d" [recAct, recAct] rfl).1⟩

end BrowserReplay
